import Mathlib

/-!
Shallow embedding of `internal/service/workmail/organization.go` from the
`terraform-provider-aws` repository fragment (WorkMail Organization resource),
together with a model of the generic status poller it configures.

The resource file itself (schema, Create/Read/Delete methods, the waiter
configurations, `statusOrganization` and `findOrganizationByID`) is embedded
directly from the source. The generic polling loop
(`retry.StateChangeConf.WaitForStateContext` from `terraform-plugin-sdk`) is an
external library whose code is not part of the repository sources; it is
modelled from the specification's description of the status poller (spec
sections 4.1 and 7). Remote interactions are modelled as explicit traces of
remote responses: one `DescribeResponse` per poll of the remote
`DescribeOrganization` API, and reaching the end of a trace without a
terminal outcome models the timeout elapsing.
-/

namespace Workmail

/-- Raw remote status string constants, from the source constant block. -/
def statusCreating : String := "Creating"

/-- Raw remote status string `"Deleting"`, from the source constant block. -/
def statusDeleting : String := "Deleting"

/-- Raw remote status string `"Active"`, from the source constant block. -/
def statusActive : String := "Active"

/-- Raw remote status string `"Deleted"`, from the source constant block. -/
def statusDeleted : String := "Deleted"

/-- Model of `workmail.DescribeOrganizationOutput` (the fields this resource
reads). Go nil-able pointer fields become `Option`. -/
structure DescribeOrganizationOutput where
  OrganizationId : Option String
  Alias : Option String
  ARN : Option String
  State : Option String
  deriving Repr, DecidableEq

/-- Model of `awstypes.Organization`, the type that `waitOrganizationDeleted`
type-asserts its raw wait output to. Nothing in the embedded code ever
constructs a value of this type; the constructor exists so the type assertion
can be modelled. -/
structure AwsOrganization where
  OrganizationId : Option String
  deriving Repr, DecidableEq

/-- Model of the dynamically typed (`any`) raw value flowing out of the wait:
either the Go `nil` interface, a `*workmail.DescribeOrganizationOutput`, or a
`*awstypes.Organization`. -/
inductive GoValue where
  | nilValue
  | describeOutput (out : DescribeOrganizationOutput)
  | organizationValue (org : AwsOrganization)
  deriving Repr, DecidableEq

/-- One remote response to a `DescribeOrganization` call: a
`ResourceNotFoundException`, some other API error, or an output (possibly a
nil pointer, possibly missing its `OrganizationId`). -/
inductive DescribeResponse where
  | resourceNotFoundException (msg : String)
  | apiError (e : String)
  | output (out : Option DescribeOrganizationOutput)
  deriving Repr, DecidableEq

/-- The errors `findOrganizationByID` can produce: a `retry.NotFoundError`
(wrapping a `ResourceNotFoundException`), a `tfresource` empty-result error,
or any other error passed through. -/
inductive FindError where
  | notFoundError
  | emptyResultError
  | apiError (e : String)
  deriving Repr, DecidableEq

/-- `findOrganizationByID` from the source: a `ResourceNotFoundException`
becomes a `retry.NotFoundError`; other errors propagate; a nil output or a
nil `OrganizationId` becomes an empty-result error; otherwise the output is
returned. -/
def findOrganizationByID : DescribeResponse → Except FindError DescribeOrganizationOutput
  | .resourceNotFoundException _ => .error .notFoundError
  | .apiError e => .error (.apiError e)
  | .output none => .error .emptyResultError
  | .output (some out) =>
    if out.OrganizationId.isNone then .error .emptyResultError else .ok out

/-- `tfresource.NotFound`: holds exactly for a `retry.NotFoundError`. -/
def NotFound : FindError → Bool
  | .notFoundError => true
  | _ => false

/-- `aws.ToString` on a nil-able string pointer: the empty string for nil. -/
def awsToString (s : Option String) : String := s.getD ""

/-- One outcome of the state refresh closure `(any, string, error)`: either an
error, or an observed value with its raw state string. -/
inductive RefreshResult where
  | refreshError (e : FindError)
  | observed (v : GoValue) (state : String)
  deriving Repr, DecidableEq

/-- `statusOrganization` from the source: fetch via `findOrganizationByID`;
a not-found error yields `(nil, "", nil)`; any other error propagates; a
found organization yields the output and `aws.ToString(out.State)`. -/
def statusOrganization (r : DescribeResponse) : RefreshResult :=
  match findOrganizationByID r with
  | .error e => if NotFound e then .observed .nilValue "" else .refreshError e
  | .ok out => .observed (.describeOutput out) (awsToString out.State)

/-- The poller configuration, from `retry.StateChangeConf` as configured in the
source waiters: pending and target state labels, the bound on consecutive
not-found checks, and the number of consecutive target observations required.
`notFoundIsTarget` is modelled from the spec: the deletion wait reaches its
target "immediately if the entity is reported not-found", while the creation
wait tolerates not-found up to `NotFoundChecks`. -/
structure StateChangeConf where
  Pending : List String
  Target : List String
  NotFoundChecks : Nat := 20
  ContinuousTargetOccurence : Nat := 1
  notFoundIsTarget : Bool := false
  deriving Repr, DecidableEq

/-- Outcome of one wait: success with the last raw refresh value, a Timeout
error (the deadline elapsed, or the bounded not-found retries escalated, per
spec section 7), a fatal fetch error propagated immediately, or an
unexpected-state error. -/
inductive WaitResult where
  | success (v : GoValue)
  | timeoutErr
  | fatalErr (e : FindError)
  | unexpectedStateErr (s : String)
  deriving Repr, DecidableEq

/-- Modelled from the spec: the generic status-poller loop of
`retry.StateChangeConf.WaitForStateContext` (external library, code not in
this repository's sources). It consumes a finite trace of refresh outcomes,
one per poll; exhausting the trace models the timeout elapsing. Per spec
section 4.1: a refresh error that is not a not-found condition aborts
immediately as a fatal error; a not-found observation is an immediate target
for the deletion wait, and otherwise is tolerated while the count of
consecutive not-founds stays within `NotFoundChecks`, escalating to a Timeout
failure beyond that bound (spec section 7); a target-state observation counts
toward `ContinuousTargetOccurence` consecutive target observations, success
being declared exactly when that count is reached; a pending-state observation
resets the consecutive-target count and polling continues. -/
def waitLoop (conf : StateChangeConf) : Nat → Nat → List RefreshResult → WaitResult
  | _, _, [] => .timeoutErr
  | notfoundTick, targetOccurence, res :: rest =>
    match res with
    | .refreshError e => .fatalErr e
    | .observed .nilValue _ =>
      if conf.notFoundIsTarget then .success .nilValue
      else if conf.NotFoundChecks < notfoundTick + 1 then .timeoutErr
      else waitLoop conf (notfoundTick + 1) targetOccurence rest
    | .observed v state =>
      if state ∈ conf.Target then
        if conf.ContinuousTargetOccurence = targetOccurence + 1 then .success v
        else waitLoop conf 0 (targetOccurence + 1) rest
      else if state ∈ conf.Pending then waitLoop conf 0 0 rest
      else .unexpectedStateErr state

/-- Modelled from the spec: running a configured wait against a trace of
remote describe responses, refreshing through `statusOrganization`. -/
def WaitForState (conf : StateChangeConf) (trace : List DescribeResponse) : WaitResult :=
  waitLoop conf 0 0 (trace.map statusOrganization)

/-- The `retry.StateChangeConf` built by `waitOrganizationCreated` in the
source: pending `{Creating}`, target `{Active}`, `NotFoundChecks: 20`,
`ContinuousTargetOccurence: 2`. -/
def waitOrganizationCreatedConf : StateChangeConf :=
  { Pending := [statusCreating]
    Target := [statusActive]
    NotFoundChecks := 20
    ContinuousTargetOccurence := 2
    notFoundIsTarget := false }

/-- The `retry.StateChangeConf` built by `waitOrganizationDeleted` in the
source: pending `{Deleting, Active}`, target `{Deleted}`; the unset counts
take the defaults (one target occurrence suffices), and per the spec the
deletion wait treats not-found as the target reached immediately. -/
def waitOrganizationDeletedConf : StateChangeConf :=
  { Pending := [statusDeleting, statusActive]
    Target := [statusDeleted]
    NotFoundChecks := 20
    ContinuousTargetOccurence := 1
    notFoundIsTarget := true }

/-- The type assertion `outputRaw.(*workmail.DescribeOrganizationOutput)`. -/
def assertDescribeOutputType : GoValue → Option DescribeOrganizationOutput
  | .describeOutput out => some out
  | _ => none

/-- The type assertion `outputRaw.(*workmail.Organization)`. -/
def assertOrganizationType : GoValue → Option AwsOrganization
  | .organizationValue org => some org
  | _ => none

/-- Whether a wait outcome is an error (`err != nil` at the call sites). -/
def waitErr : WaitResult → Bool
  | .success _ => false
  | _ => true

/-- `waitOrganizationCreated` from the source: run the wait with the creation
configuration and type-assert the raw output. -/
def waitOrganizationCreated (trace : List DescribeResponse) :
    Option DescribeOrganizationOutput × WaitResult :=
  match WaitForState waitOrganizationCreatedConf trace with
  | .success v => (assertDescribeOutputType v, .success v)
  | r => (none, r)

/-- `waitOrganizationDeleted` from the source: run the wait with the deletion
configuration and type-assert the raw output to `*awstypes.Organization`. -/
def waitOrganizationDeleted (trace : List DescribeResponse) :
    Option AwsOrganization × WaitResult :=
  match WaitForState waitOrganizationDeletedConf trace with
  | .success v => (assertOrganizationType v, .success v)
  | r => (none, r)

/-! ### Schema and timeouts -/

/-- Model of `timeouts.Opts`: which phase timeouts the schema's `timeouts`
attribute exposes to the user. Unset Go fields are `false`. -/
structure TimeoutsOpts where
  Create : Bool := false
  Read : Bool := false
  Update : Bool := false
  Delete : Bool := false
  deriving Repr, DecidableEq

/-- The `timeouts.Opts` literal in the source `Schema`:
`timeouts.Opts{Create: true}` — only the create phase is exposed. -/
def organizationTimeoutsOpts : TimeoutsOpts := { Create := true }

/-- The lifecycle phases whose timeouts the spec discusses. -/
inductive Phase where
  | create
  | update
  | delete
  deriving Repr, DecidableEq

/-- Whether a user-supplied timeout for a phase is accepted by the declared
configuration surface, read off the schema's `timeouts.Opts`. -/
def timeoutConfigurable : Phase → Bool
  | .create => organizationTimeoutsOpts.Create
  | .update => organizationTimeoutsOpts.Update
  | .delete => organizationTimeoutsOpts.Delete

/-- Durations in seconds. `10 * time.Minute` from `newResourceOrganization`. -/
def defaultCreateTimeout : Nat := 10 * 60

/-- Default update timeout set by `newResourceOrganization`, in seconds. -/
def defaultUpdateTimeout : Nat := 10 * 60

/-- Default delete timeout set by `newResourceOrganization`, in seconds. -/
def defaultDeleteTimeout : Nat := 10 * 60

/-- The value of the `timeouts` attribute in a plan or state: since the schema
exposes only `Create`, a user can supply only a create duration. -/
structure TimeoutsValue where
  create : Option Nat := none
  deriving Repr, DecidableEq

/-- Modelled from the spec: `framework.WithTimeouts.CreateTimeout` returns the
user-configured create timeout when present, else the registered default. -/
def CreateTimeout (t : TimeoutsValue) : Nat := t.create.getD defaultCreateTimeout

/-- Modelled from the spec: `framework.WithTimeouts.UpdateTimeout`; the schema
exposes no update timeout attribute, so the registered default is always
returned. -/
def UpdateTimeout (_ : TimeoutsValue) : Nat := defaultUpdateTimeout

/-- Modelled from the spec: `framework.WithTimeouts.DeleteTimeout`; the schema
exposes no delete timeout attribute, so the registered default is always
returned. -/
def DeleteTimeout (_ : TimeoutsValue) : Nat := defaultDeleteTimeout

/-- Plan modifiers appearing in the embedded schema. -/
inductive PlanModifier where
  | requiresReplace
  deriving Repr, DecidableEq

/-- A string attribute of the declared schema. -/
structure StringAttributeSchema where
  Required : Bool := false
  Optional : Bool := false
  Computed : Bool := false
  PlanModifiers : List PlanModifier := []
  deriving Repr, DecidableEq

/-- The `alias` attribute from the source `Schema`: required, with the
`stringplanmodifier.RequiresReplace()` plan modifier. -/
def aliasSchema : StringAttributeSchema :=
  { Required := true, PlanModifiers := [.requiresReplace] }

/-- The `description` attribute from the source `Schema`: optional. -/
def descriptionSchema : StringAttributeSchema := { Optional := true }

/-- The `arn` attribute, `framework.ARNAttributeComputedOnly()`: computed. -/
def arnSchema : StringAttributeSchema := { Computed := true }

/-- The `id` attribute, `framework.IDAttribute()`: computed. -/
def idSchema : StringAttributeSchema := { Computed := true }

/-- The plan actions the framework can take for a changed resource. -/
inductive ResourceAction where
  | noop
  | updateInPlace
  | replace
  deriving Repr, DecidableEq

/-- Modelled from the spec: the plugin framework's planning of a change to the
`alias` attribute. An unchanged value is a no-op; a changed value forces
replacement exactly when the attribute carries the `RequiresReplace` plan
modifier, and is an in-place update otherwise. -/
def planAliasAction (prior planned : String) : ResourceAction :=
  if prior = planned then .noop
  else if PlanModifier.requiresReplace ∈ aliasSchema.PlanModifiers then .replace
  else .updateInPlace

/-! ### Lifecycle controller: Create, Read, Delete -/

/-- The resource model (`resourceOrganizationModel` in the source). -/
structure resourceOrganizationModel where
  ARN : Option String := none
  Description : Option String := none
  ID : Option String := none
  Alias : Option String := none
  Timeouts : TimeoutsValue := {}
  deriving Repr, DecidableEq

/-- Model of `workmail.CreateOrganizationOutput` (the field Create reads). -/
structure CreateOrganizationOutput where
  OrganizationId : Option String
  deriving Repr, DecidableEq

/-- One remote response to a `CreateOrganization` call. -/
inductive CreateApiResult where
  | apiError (e : String)
  | output (out : Option CreateOrganizationOutput)
  deriving Repr, DecidableEq

/-- One remote response to a `DeleteOrganization` call. -/
inductive DeleteApiResult where
  | resourceNotFoundException (msg : String)
  | apiError (e : String)
  | ok
  deriving Repr, DecidableEq

/-- `flex.Flatten` of the create output into the plan: records the assigned
organization id. -/
def flattenCreateOutput (out : CreateOrganizationOutput)
    (plan : resourceOrganizationModel) : resourceOrganizationModel :=
  { plan with ID := out.OrganizationId }

/-- `flex.Flatten` of a describe output into the state: refreshes the
remote-derived fields. -/
def flattenDescribeOutput (out : DescribeOrganizationOutput)
    (state : resourceOrganizationModel) : resourceOrganizationModel :=
  { state with ID := out.OrganizationId, Alias := out.Alias, ARN := out.ARN }

/-- Outcome of the `Create` method: whether the diagnostics carry an error and
the state committed via `resp.State.Set` (`none` when Create returned without
setting any state). -/
structure CreateResponse where
  hasError : Bool
  stateSet : Option resourceOrganizationModel
  deriving Repr, DecidableEq

/-- The `Create` method from the source: call `CreateOrganization`; an error,
a nil output or a nil `OrganizationId` is a diagnostics error with no state
committed; otherwise flatten the output into the plan and run
`waitOrganizationCreated` against the poll trace; a wait error is a
diagnostics error with no state committed; on wait success the plan is
committed to state. -/
def Create (plan : resourceOrganizationModel) (api : CreateApiResult)
    (trace : List DescribeResponse) : CreateResponse :=
  match api with
  | .apiError _ => { hasError := true, stateSet := none }
  | .output none => { hasError := true, stateSet := none }
  | .output (some out) =>
    if out.OrganizationId.isNone then { hasError := true, stateSet := none }
    else
      let plan' := flattenCreateOutput out plan
      if waitErr (waitOrganizationCreated trace).2 then
        { hasError := true, stateSet := none }
      else
        { hasError := false, stateSet := some plan' }

/-- Outcome of the `Read` method: diagnostics error flag, whether a
not-found warning diagnostic was appended, whether the local record was
removed via `resp.State.RemoveResource`, and the refreshed state if set. -/
structure ReadResponse where
  hasError : Bool
  warningAdded : Bool
  stateRemoved : Bool
  newState : Option resourceOrganizationModel
  deriving Repr, DecidableEq

/-- The `Read` method from the source: fetch with `findOrganizationByID`; on
`tfresource.NotFound` append a warning diagnostic and remove the local record
(no error); on any other error record a diagnostics error; otherwise flatten
the output into the state and set it. -/
def Read (state : resourceOrganizationModel) (resp : DescribeResponse) : ReadResponse :=
  match findOrganizationByID resp with
  | .error e =>
    if NotFound e then
      { hasError := false, warningAdded := true, stateRemoved := true, newState := none }
    else
      { hasError := true, warningAdded := false, stateRemoved := false, newState := none }
  | .ok out =>
    { hasError := false, warningAdded := false, stateRemoved := false,
      newState := some (flattenDescribeOutput out state) }

/-- Outcome of the `Delete` method: diagnostics error flag and whether the
deletion poller (`waitOrganizationDeleted`) was invoked at all. -/
structure DeleteResponse where
  hasError : Bool
  waitInvoked : Bool
  deriving Repr, DecidableEq

/-- The `Delete` method from the source: call `DeleteOrganization`; a
`ResourceNotFoundException` returns immediately with no error and no wait;
any other error is a diagnostics error with no wait; otherwise run
`waitOrganizationDeleted` against the poll trace and report its error, if
any. -/
def Delete (api : DeleteApiResult) (trace : List DescribeResponse) : DeleteResponse :=
  match api with
  | .resourceNotFoundException _ => { hasError := false, waitInvoked := false }
  | .apiError _ => { hasError := true, waitInvoked := false }
  | .ok => { hasError := waitErr (waitOrganizationDeleted trace).2, waitInvoked := true }

/-! ### Helper lemmas -/

theorem statusOrganization_notFound (msg : String) :
    statusOrganization (.resourceNotFoundException msg) = .observed .nilValue "" := rfl

theorem statusOrganization_apiError (e : String) :
    statusOrganization (.apiError e) = .refreshError (.apiError e) := rfl

theorem statusOrganization_outputNone :
    statusOrganization (.output none) = .refreshError .emptyResultError := rfl

theorem statusOrganization_found {o : DescribeOrganizationOutput} {i : String}
    (hi : o.OrganizationId = some i) :
    statusOrganization (.output (some o)) =
      .observed (.describeOutput o) (awsToString o.State) := by
  simp [statusOrganization, findOrganizationByID, hi]

theorem waitLoop_nil (conf : StateChangeConf) (nf tOcc : Nat) :
    waitLoop conf nf tOcc [] = .timeoutErr := rfl

theorem waitLoop_refreshError (conf : StateChangeConf) (nf tOcc : Nat) (e : FindError)
    (l : List RefreshResult) :
    waitLoop conf nf tOcc (.refreshError e :: l) = .fatalErr e := rfl

theorem waitLoop_created_creating (nf tOcc : Nat) (o : DescribeOrganizationOutput)
    (l : List RefreshResult) :
    waitLoop waitOrganizationCreatedConf nf tOcc
        (.observed (.describeOutput o) statusCreating :: l)
      = waitLoop waitOrganizationCreatedConf 0 0 l := by
  simp [waitLoop, waitOrganizationCreatedConf, statusCreating, statusActive]

theorem waitLoop_created_active_first (nf : Nat) (o : DescribeOrganizationOutput)
    (l : List RefreshResult) :
    waitLoop waitOrganizationCreatedConf nf 0
        (.observed (.describeOutput o) statusActive :: l)
      = waitLoop waitOrganizationCreatedConf 0 1 l := by
  simp [waitLoop, waitOrganizationCreatedConf, statusActive]

theorem waitLoop_created_active_second (nf : Nat) (o : DescribeOrganizationOutput)
    (l : List RefreshResult) :
    waitLoop waitOrganizationCreatedConf nf 1
        (.observed (.describeOutput o) statusActive :: l)
      = .success (.describeOutput o) := by
  simp [waitLoop, waitOrganizationCreatedConf, statusActive]

theorem waitLoop_created_nilObs (nf tOcc : Nat) (s : String) (l : List RefreshResult) :
    waitLoop waitOrganizationCreatedConf nf tOcc (.observed .nilValue s :: l)
      = if 20 < nf + 1 then .timeoutErr
        else waitLoop waitOrganizationCreatedConf (nf + 1) tOcc l := by
  simp [waitLoop, waitOrganizationCreatedConf]

/-- A prefix of `Creating` observations leaves the creation wait polling with
both counters reset. -/
theorem waitLoop_created_creating_prefix (n : Nat) (o : DescribeOrganizationOutput)
    (l : List RefreshResult) :
    waitLoop waitOrganizationCreatedConf 0 0
        (List.replicate n (.observed (.describeOutput o) statusCreating) ++ l)
      = waitLoop waitOrganizationCreatedConf 0 0 l := by
  induction n with
  | zero => simp
  | succ k ih =>
    rw [List.replicate_succ, List.cons_append, waitLoop_created_creating]
    exact ih

/-- Up to the bound, consecutive not-found observations only advance the
not-found counter. -/
theorem waitLoop_created_nf_tolerated (k : Nat) :
    ∀ nf tOcc : Nat, ∀ l : List RefreshResult, nf + k ≤ 20 →
    waitLoop waitOrganizationCreatedConf nf tOcc
        (List.replicate k (.observed .nilValue "") ++ l)
      = waitLoop waitOrganizationCreatedConf (nf + k) tOcc l := by
  induction k with
  | zero => intro nf tOcc l _; simp
  | succ k ih =>
    intro nf tOcc l h
    rw [List.replicate_succ, List.cons_append, waitLoop_created_nilObs,
      if_neg (by omega)]
    rw [ih (nf + 1) tOcc l (by omega)]
    congr 1
    omega

/-- Beyond the bound, consecutive not-found observations make the creation
wait fail with a Timeout. -/
theorem waitLoop_created_nf_escalates (k : Nat) :
    ∀ nf tOcc : Nat, ∀ l : List RefreshResult, 1 ≤ k → 21 ≤ nf + k →
    waitLoop waitOrganizationCreatedConf nf tOcc
        (List.replicate k (.observed .nilValue "") ++ l)
      = .timeoutErr := by
  induction k with
  | zero => intro nf tOcc l h; omega
  | succ k ih =>
    intro nf tOcc l _ h
    rw [List.replicate_succ, List.cons_append, waitLoop_created_nilObs]
    by_cases hb : 20 < nf + 1
    · rw [if_pos hb]
    · rw [if_neg hb]
      exact ih (nf + 1) tOcc l (by omega) (by omega)

theorem waitLoop_deleted_notFound (nf tOcc : Nat) (s : String) (l : List RefreshResult) :
    waitLoop waitOrganizationDeletedConf nf tOcc (.observed .nilValue s :: l)
      = .success .nilValue := by
  simp [waitLoop, waitOrganizationDeletedConf]

theorem waitLoop_deleted_deleted (nf : Nat) (o : DescribeOrganizationOutput)
    (l : List RefreshResult) :
    waitLoop waitOrganizationDeletedConf nf 0
        (.observed (.describeOutput o) statusDeleted :: l)
      = .success (.describeOutput o) := by
  simp [waitLoop, waitOrganizationDeletedConf, statusDeleted]

theorem waitLoop_deleted_pending (nf tOcc : Nat) (o : DescribeOrganizationOutput)
    (s : String) (hs : s = statusDeleting ∨ s = statusActive) (l : List RefreshResult) :
    waitLoop waitOrganizationDeletedConf nf tOcc (.observed (.describeOutput o) s :: l)
      = waitLoop waitOrganizationDeletedConf 0 0 l := by
  rcases hs with hs | hs <;>
    simp [hs, waitLoop, waitOrganizationDeletedConf, statusDeleting, statusActive,
      statusDeleted]

theorem waitOrganizationCreated_congr {t₁ t₂ : List DescribeResponse}
    (h : WaitForState waitOrganizationCreatedConf t₁ = WaitForState waitOrganizationCreatedConf t₂) :
    waitOrganizationCreated t₁ = waitOrganizationCreated t₂ := by
  unfold waitOrganizationCreated
  rw [h]

theorem waitOrganizationDeleted_congr {t₁ t₂ : List DescribeResponse}
    (h : WaitForState waitOrganizationDeletedConf t₁ = WaitForState waitOrganizationDeletedConf t₂) :
    waitOrganizationDeleted t₁ = waitOrganizationDeleted t₂ := by
  unfold waitOrganizationDeleted
  rw [h]

/-- Step lemma for an observed non-nil value in the generic loop. -/
theorem waitLoop_cons_observed (conf : StateChangeConf) (nf tOcc : Nat) (v : GoValue)
    (s : String) (l : List RefreshResult) (hv : v ≠ .nilValue) :
    waitLoop conf nf tOcc (.observed v s :: l)
      = if s ∈ conf.Target then
          if conf.ContinuousTargetOccurence = tOcc + 1 then .success v
          else waitLoop conf 0 (tOcc + 1) l
        else if s ∈ conf.Pending then waitLoop conf 0 0 l
        else .unexpectedStateErr s := by
  match v with
  | .describeOutput o => simp [waitLoop]
  | .organizationValue org => simp [waitLoop]
  | .nilValue => exact absurd rfl hv

/-- A successful wait returns either the nil value or a value observed
somewhere in the refresh trace. -/
theorem waitLoop_success_mem (conf : StateChangeConf) (l : List RefreshResult) :
    ∀ (nf tOcc : Nat) (v : GoValue), waitLoop conf nf tOcc l = .success v →
    v = .nilValue ∨ ∃ s, RefreshResult.observed v s ∈ l := by
  induction l with
  | nil =>
    intro nf tOcc v h
    rw [waitLoop_nil] at h
    exact absurd h (by simp)
  | cons r rest ih =>
    intro nf tOcc v h
    match r with
    | .refreshError e =>
      rw [waitLoop_refreshError] at h
      exact absurd h (by simp)
    | .observed .nilValue s =>
      simp only [waitLoop] at h
      split at h
      · cases h
        exact Or.inl rfl
      · split at h
        · exact absurd h (by simp)
        · rcases ih _ _ _ h with hn | ⟨s', hmem⟩
          · exact Or.inl hn
          · exact Or.inr ⟨s', List.mem_cons_of_mem _ hmem⟩
    | .observed (.describeOutput o) s =>
      rw [waitLoop_cons_observed conf nf tOcc _ s rest (by simp)] at h
      split at h
      · split at h
        · cases h
          exact Or.inr ⟨s, List.mem_cons_self _ _⟩
        · rcases ih _ _ _ h with hn | ⟨s', hmem⟩
          · exact Or.inl hn
          · exact Or.inr ⟨s', List.mem_cons_of_mem _ hmem⟩
      · split at h
        · rcases ih _ _ _ h with hn | ⟨s', hmem⟩
          · exact Or.inl hn
          · exact Or.inr ⟨s', List.mem_cons_of_mem _ hmem⟩
        · exact absurd h (by simp)
    | .observed (.organizationValue org) s =>
      rw [waitLoop_cons_observed conf nf tOcc _ s rest (by simp)] at h
      split at h
      · split at h
        · cases h
          exact Or.inr ⟨s, List.mem_cons_self _ _⟩
        · rcases ih _ _ _ h with hn | ⟨s', hmem⟩
          · exact Or.inl hn
          · exact Or.inr ⟨s', List.mem_cons_of_mem _ hmem⟩
      · split at h
        · rcases ih _ _ _ h with hn | ⟨s', hmem⟩
          · exact Or.inl hn
          · exact Or.inr ⟨s', List.mem_cons_of_mem _ hmem⟩
        · exact absurd h (by simp)

/-- `statusOrganization` never produces a `*awstypes.Organization` value. -/
theorem statusOrganization_ne_organizationValue (r : DescribeResponse)
    (org : AwsOrganization) (s : String) :
    statusOrganization r ≠ .observed (.organizationValue org) s := by
  match r with
  | .resourceNotFoundException m => simp [statusOrganization_notFound]
  | .apiError e => simp [statusOrganization_apiError]
  | .output none => simp [statusOrganization_outputNone]
  | .output (some o) =>
    unfold statusOrganization findOrganizationByID
    by_cases hi : o.OrganizationId.isNone <;> simp [hi, NotFound]

/-- An all-`Creating` response trace leaves the creation wait pending to the
end of the trace: the timeout elapses. -/
theorem waitLoop_created_all_pending (trace : List DescribeResponse)
    (h : ∀ r ∈ trace, ∃ o i, r = DescribeResponse.output (some o) ∧
      o.OrganizationId = some i ∧ o.State = some statusCreating) :
    waitLoop waitOrganizationCreatedConf 0 0 (trace.map statusOrganization)
      = .timeoutErr := by
  induction trace with
  | nil => rfl
  | cons r rest ih =>
    rcases h r (List.mem_cons_self _ _) with ⟨o, i, hr, hi, hs⟩
    subst hr
    rw [List.map_cons, statusOrganization_found hi, hs]
    show waitLoop waitOrganizationCreatedConf 0 0
      (.observed (.describeOutput o) (awsToString (some statusCreating)) :: _) = _
    rw [show awsToString (some statusCreating) = statusCreating from rfl,
      waitLoop_created_creating]
    exact ih (fun r hr => h r (List.mem_cons_of_mem _ hr))

/-! ### Sample values used by the witnesses -/

/-- A sample describe output observed in state `Creating`. -/
def oCreatingSample : DescribeOrganizationOutput :=
  { OrganizationId := some "m-00", Alias := some "alias0", ARN := some "arn:0",
    State := some "Creating" }

/-- A sample describe output observed in state `Active`. -/
def oActiveSample : DescribeOrganizationOutput :=
  { OrganizationId := some "m-00", Alias := some "alias0", ARN := some "arn:0",
    State := some "Active" }

/-- A sample describe output observed in state `Deleting`. -/
def oDeletingSample : DescribeOrganizationOutput :=
  { OrganizationId := some "m-00", Alias := some "alias0", ARN := some "arn:0",
    State := some "Deleting" }

/-- A sample describe output observed in state `Deleted`. -/
def oDeletedSample : DescribeOrganizationOutput :=
  { OrganizationId := some "m-00", Alias := some "alias0", ARN := some "arn:0",
    State := some "Deleted" }

/-! ### Claims -/

/-- C1: The creation wait declares success only after the target status
`Active` has been observed on two consecutive polls: after any run of
`Creating` observations, a single `Active` observation flanked by `Creating`
observations does not make the wait succeed at that point (the wait continues
exactly as if restarted on the remaining trace), whereas two consecutive
`Active` observations do make it succeed. -/
theorem waitOrganizationCreated_two_consecutive_active
    (n : Nat) (oC oA oC2 oA2 : DescribeOrganizationOutput) (iC iA iC2 iA2 : String)
    (rest rest2 : List DescribeResponse)
    (hCi : oC.OrganizationId = some iC) (hCs : oC.State = some statusCreating)
    (hAi : oA.OrganizationId = some iA) (hAs : oA.State = some statusActive)
    (hC2i : oC2.OrganizationId = some iC2) (hC2s : oC2.State = some statusCreating)
    (hA2i : oA2.OrganizationId = some iA2) (hA2s : oA2.State = some statusActive) :
    waitOrganizationCreated
        (List.replicate n (DescribeResponse.output (some oC)) ++
          DescribeResponse.output (some oA) :: DescribeResponse.output (some oC2) :: rest)
      = waitOrganizationCreated rest
  ∧ waitOrganizationCreated
        (List.replicate n (DescribeResponse.output (some oC)) ++
          DescribeResponse.output (some oA) :: DescribeResponse.output (some oA2) :: rest2)
      = (some oA2, .success (.describeOutput oA2)) := by
  have sC : statusOrganization (.output (some oC))
      = .observed (.describeOutput oC) statusCreating := by
    rw [statusOrganization_found hCi, hCs]
    rfl
  have sA : statusOrganization (.output (some oA))
      = .observed (.describeOutput oA) statusActive := by
    rw [statusOrganization_found hAi, hAs]
    rfl
  have sC2 : statusOrganization (.output (some oC2))
      = .observed (.describeOutput oC2) statusCreating := by
    rw [statusOrganization_found hC2i, hC2s]
    rfl
  have sA2 : statusOrganization (.output (some oA2))
      = .observed (.describeOutput oA2) statusActive := by
    rw [statusOrganization_found hA2i, hA2s]
    rfl
  constructor
  · apply waitOrganizationCreated_congr
    unfold WaitForState
    rw [List.map_append, List.map_replicate, List.map_cons, List.map_cons,
      sC, sA, sC2, waitLoop_created_creating_prefix,
      waitLoop_created_active_first, waitLoop_created_creating]
  · have hW : WaitForState waitOrganizationCreatedConf
        (List.replicate n (DescribeResponse.output (some oC)) ++
          DescribeResponse.output (some oA) :: DescribeResponse.output (some oA2) :: rest2)
        = .success (.describeOutput oA2) := by
      unfold WaitForState
      rw [List.map_append, List.map_replicate, List.map_cons, List.map_cons,
        sC, sA, sA2, waitLoop_created_creating_prefix,
        waitLoop_created_active_first, waitLoop_created_active_second]
    unfold waitOrganizationCreated
    rw [hW]
    rfl

/-- C1 witness: at the concrete flickering trace
`[Creating, Active, Creating]` the creation wait does not succeed, while at
`[Creating, Active, Active]` it succeeds with the observed output. -/
theorem waitOrganizationCreated_two_consecutive_active_witness :
    oCreatingSample.OrganizationId = some "m-00"
  ∧ oCreatingSample.State = some statusCreating
  ∧ oActiveSample.OrganizationId = some "m-00"
  ∧ oActiveSample.State = some statusActive
  ∧ (waitOrganizationCreated
        (List.replicate 1 (DescribeResponse.output (some oCreatingSample)) ++
          DescribeResponse.output (some oActiveSample) ::
            DescribeResponse.output (some oCreatingSample) :: [])
      = waitOrganizationCreated []
  ∧ waitOrganizationCreated
        (List.replicate 1 (DescribeResponse.output (some oCreatingSample)) ++
          DescribeResponse.output (some oActiveSample) ::
            DescribeResponse.output (some oActiveSample) :: [])
      = (some oActiveSample, .success (.describeOutput oActiveSample))) :=
  ⟨rfl, rfl, rfl, rfl,
    waitOrganizationCreated_two_consecutive_active 1 oCreatingSample oActiveSample
      oCreatingSample oActiveSample "m-00" "m-00" "m-00" "m-00" [] []
      rfl rfl rfl rfl rfl rfl rfl rfl⟩

/-- C2: In the deletion wait, the target condition is reached on the first
observation of the `Deleted` state (success with that observation), is reached
immediately — as success, not an error — when the fetch reports not-found, and
a pending (`Deleting` or `Active`) observation just continues the wait. -/
theorem waitOrganizationDeleted_first_deleted
    (oD oP : DescribeOrganizationOutput) (iD iP msg : String)
    (rest rest2 rest3 : List DescribeResponse)
    (hDi : oD.OrganizationId = some iD) (hDs : oD.State = some statusDeleted)
    (hPi : oP.OrganizationId = some iP)
    (hPs : oP.State = some statusDeleting ∨ oP.State = some statusActive) :
    waitOrganizationDeleted (DescribeResponse.output (some oD) :: rest)
      = (none, .success (.describeOutput oD))
  ∧ (waitErr (waitOrganizationDeleted (DescribeResponse.output (some oD) :: rest)).2
      = false)
  ∧ waitOrganizationDeleted (DescribeResponse.resourceNotFoundException msg :: rest2)
      = (none, .success .nilValue)
  ∧ (waitErr
      (waitOrganizationDeleted (DescribeResponse.resourceNotFoundException msg :: rest2)).2
      = false)
  ∧ waitOrganizationDeleted (DescribeResponse.output (some oP) :: rest3)
      = waitOrganizationDeleted rest3 := by
  have hWd : WaitForState waitOrganizationDeletedConf
      (DescribeResponse.output (some oD) :: rest) = .success (.describeOutput oD) := by
    unfold WaitForState
    rw [List.map_cons, statusOrganization_found hDi, hDs]
    exact waitLoop_deleted_deleted 0 oD _
  have hWn : WaitForState waitOrganizationDeletedConf
      (DescribeResponse.resourceNotFoundException msg :: rest2) = .success .nilValue := by
    unfold WaitForState
    rw [List.map_cons, statusOrganization_notFound]
    exact waitLoop_deleted_notFound 0 0 "" _
  refine ⟨?_, ?_, ?_, ?_, ?_⟩
  · unfold waitOrganizationDeleted
    rw [hWd]
    rfl
  · unfold waitOrganizationDeleted
    rw [hWd]
    rfl
  · unfold waitOrganizationDeleted
    rw [hWn]
    rfl
  · unfold waitOrganizationDeleted
    rw [hWn]
    rfl
  · apply waitOrganizationDeleted_congr
    unfold WaitForState
    rw [List.map_cons, statusOrganization_found hPi]
    rcases hPs with hs | hs <;> rw [hs]
    · exact waitLoop_deleted_pending 0 0 oP _ (Or.inl rfl) _
    · exact waitLoop_deleted_pending 0 0 oP _ (Or.inr rfl) _

/-- C2 witness: at concrete one-element traces, a `Deleted` observation and a
not-found report each terminate the deletion wait successfully, and a
`Deleting` observation continues it. -/
theorem waitOrganizationDeleted_first_deleted_witness :
    oDeletedSample.OrganizationId = some "m-00"
  ∧ oDeletedSample.State = some statusDeleted
  ∧ (oDeletingSample.State = some statusDeleting ∨
      oDeletingSample.State = some statusActive)
  ∧ (waitOrganizationDeleted [DescribeResponse.output (some oDeletedSample)]
      = (none, .success (.describeOutput oDeletedSample))
  ∧ waitOrganizationDeleted [DescribeResponse.resourceNotFoundException "gone"]
      = (none, .success .nilValue)
  ∧ waitOrganizationDeleted [DescribeResponse.output (some oDeletingSample)]
      = waitOrganizationDeleted []) :=
  ⟨rfl, rfl, Or.inl rfl,
    (waitOrganizationDeleted_first_deleted oDeletedSample oDeletingSample "m-00" "m-00"
      "gone" [] [] [] rfl rfl rfl (Or.inl rfl)).1,
    (waitOrganizationDeleted_first_deleted oDeletedSample oDeletingSample "m-00" "m-00"
      "gone" [] [] [] rfl rfl rfl (Or.inl rfl)).2.2.1,
    (waitOrganizationDeleted_first_deleted oDeletedSample oDeletingSample "m-00" "m-00"
      "gone" [] [] [] rfl rfl rfl (Or.inl rfl)).2.2.2.2⟩

/-- C3 counterexample: the claim that every phase among create/update/delete
has a user-configurable timeout is false — the schema's `timeouts.Opts`
exposes neither the update nor the delete phase. -/
theorem timeouts_not_all_phases_configurable :
    timeoutConfigurable Phase.update = false
  ∧ timeoutConfigurable Phase.delete = false
  ∧ ¬ (∀ p : Phase, timeoutConfigurable p = true) := by
  refine ⟨rfl, rfl, fun h => ?_⟩
  have hu := h Phase.update
  simp [timeoutConfigurable, organizationTimeoutsOpts] at hu

/-- C3 amended: only the create phase timeout is user-configurable (and a
user-supplied create timeout is the one used); the update and delete phases
are not configurable and always use the registered 10-minute defaults. -/
theorem timeouts_create_phase_only :
    timeoutConfigurable Phase.create = true
  ∧ timeoutConfigurable Phase.update = false
  ∧ timeoutConfigurable Phase.delete = false
  ∧ (∀ d : Nat, CreateTimeout { create := some d } = d)
  ∧ CreateTimeout { create := none } = defaultCreateTimeout
  ∧ (∀ t : TimeoutsValue, UpdateTimeout t = defaultUpdateTimeout)
  ∧ (∀ t : TimeoutsValue, DeleteTimeout t = defaultDeleteTimeout)
  ∧ defaultCreateTimeout = 10 * 60
  ∧ defaultUpdateTimeout = 10 * 60
  ∧ defaultDeleteTimeout = 10 * 60 :=
  ⟨rfl, rfl, rfl, fun _ => rfl, rfl, fun _ => rfl, fun _ => rfl, rfl, rfl, rfl⟩

/-- C4: If the trace keeps reporting the pending `Creating` state until the
timeout elapses, the creation wait returns a Timeout error and `Create`
records an error without committing any state (`resp.State` is not set). -/
theorem Create_timeout_commits_no_state (trace : List DescribeResponse)
    (h : ∀ r ∈ trace, ∃ o i, r = DescribeResponse.output (some o) ∧
      o.OrganizationId = some i ∧ o.State = some statusCreating)
    (plan : resourceOrganizationModel) (out : CreateOrganizationOutput)
    (i : String) (hout : out.OrganizationId = some i) :
    (waitOrganizationCreated trace).2 = .timeoutErr
  ∧ Create plan (.output (some out)) trace
      = { hasError := true, stateSet := none } := by
  have hW : WaitForState waitOrganizationCreatedConf trace = .timeoutErr := by
    unfold WaitForState
    exact waitLoop_created_all_pending trace h
  have hwait : waitOrganizationCreated trace = (none, .timeoutErr) := by
    unfold waitOrganizationCreated
    rw [hW]
  refine ⟨by rw [hwait], ?_⟩
  simp only [Create, hout, Option.isNone_some, Bool.false_eq_true, if_false, hwait, waitErr,
    if_true]

/-- C4 witness: with a concrete one-poll trace stuck in `Creating`, the wait
times out and `Create` commits no state. -/
theorem Create_timeout_commits_no_state_witness :
    (∀ r ∈ [DescribeResponse.output (some oCreatingSample)], ∃ o i,
      r = DescribeResponse.output (some o) ∧ o.OrganizationId = some i ∧
      o.State = some statusCreating)
  ∧ (waitOrganizationCreated [DescribeResponse.output (some oCreatingSample)]).2
      = .timeoutErr
  ∧ Create {} (.output (some ⟨some "m-00"⟩))
        [DescribeResponse.output (some oCreatingSample)]
      = { hasError := true, stateSet := none } := by
  have h : ∀ r ∈ [DescribeResponse.output (some oCreatingSample)], ∃ o i,
      r = DescribeResponse.output (some o) ∧ o.OrganizationId = some i ∧
      o.State = some statusCreating := by
    intro r hr
    rw [List.mem_singleton] at hr
    subst hr
    exact ⟨oCreatingSample, "m-00", rfl, rfl, rfl⟩
  exact ⟨h, Create_timeout_commits_no_state _ h {} ⟨some "m-00"⟩ "m-00" rfl⟩

/-- C5: During the creation wait, up to 20 consecutive not-found fetch results
are tolerated and polling continues (the wait proceeds exactly as if restarted
once a real observation arrives); 21 consecutive not-found checks exceed the
bound and the wait fails with a Timeout error. -/
theorem waitOrganizationCreated_not_found_bounded
    (n : Nat) (hn : n ≤ 20) (msg : String) (oC : DescribeOrganizationOutput)
    (iC : String) (rest : List DescribeResponse)
    (hCi : oC.OrganizationId = some iC) (hCs : oC.State = some statusCreating) :
    waitOrganizationCreated
        (List.replicate n (DescribeResponse.resourceNotFoundException msg) ++
          DescribeResponse.output (some oC) :: rest)
      = waitOrganizationCreated rest
  ∧ (∀ rest2 : List DescribeResponse,
      waitOrganizationCreated
          (List.replicate 21 (DescribeResponse.resourceNotFoundException msg) ++ rest2)
        = (none, .timeoutErr)) := by
  have sC : statusOrganization (.output (some oC))
      = .observed (.describeOutput oC) statusCreating := by
    rw [statusOrganization_found hCi, hCs]
    rfl
  constructor
  · apply waitOrganizationCreated_congr
    unfold WaitForState
    rw [List.map_append, List.map_replicate, List.map_cons, sC,
      statusOrganization_notFound,
      waitLoop_created_nf_tolerated n 0 0 _ (by omega),
      waitLoop_created_creating]
  · intro rest2
    have hW : WaitForState waitOrganizationCreatedConf
        (List.replicate 21 (DescribeResponse.resourceNotFoundException msg) ++ rest2)
        = .timeoutErr := by
      unfold WaitForState
      rw [List.map_append, List.map_replicate, statusOrganization_notFound]
      exact waitLoop_created_nf_escalates 21 0 0 _ (by omega) (by omega)
    unfold waitOrganizationCreated
    rw [hW]

/-- C5 witness: one not-found before a `Creating` observation is tolerated,
and 21 consecutive not-founds fail the wait with a Timeout. -/
theorem waitOrganizationCreated_not_found_bounded_witness :
    1 ≤ 20
  ∧ oCreatingSample.OrganizationId = some "m-00"
  ∧ oCreatingSample.State = some statusCreating
  ∧ (waitOrganizationCreated
        (List.replicate 1 (DescribeResponse.resourceNotFoundException "nf") ++
          DescribeResponse.output (some oCreatingSample) :: [])
      = waitOrganizationCreated []
  ∧ waitOrganizationCreated
        (List.replicate 21 (DescribeResponse.resourceNotFoundException "nf") ++ [])
      = (none, .timeoutErr)) := by
  have h := waitOrganizationCreated_not_found_bounded 1 (by decide) "nf"
    oCreatingSample "m-00" [] rfl rfl
  exact ⟨by decide, rfl, rfl, h.1, h.2 []⟩

/-- C6: `Delete` on an entity whose `DeleteOrganization` call reports
`ResourceNotFoundException` returns success — no error diagnostic — and never
invokes the deletion poller, whatever poll trace would have been observed. -/
theorem Delete_not_found_is_noop (msg : String) (trace : List DescribeResponse) :
    Delete (.resourceNotFoundException msg) trace
      = { hasError := false, waitInvoked := false } := rfl

/-- C7: `Read` on an entity whose fetch reports not-found removes the local
record, adds no error (only the not-found warning diagnostic), and sets no
new state. -/
theorem Read_not_found_removes_state (state : resourceOrganizationModel)
    (msg : String) :
    Read state (.resourceNotFoundException msg)
      = { hasError := false, warningAdded := true, stateRemoved := true,
          newState := none } := rfl

/-- C8: A fetch error that is not a not-found condition (an API error, or an
empty describe result) is passed through by `statusOrganization` and aborts
the wait immediately as a fatal propagated error — the rest of the trace is
never consulted — in both the creation and the deletion wait. -/
theorem statusOrganization_error_aborts_wait
    (n : Nat) (e : String) (oC : DescribeOrganizationOutput) (iC : String)
    (rest rest2 rest3 : List DescribeResponse)
    (hCi : oC.OrganizationId = some iC) (hCs : oC.State = some statusCreating) :
    statusOrganization (.apiError e) = .refreshError (.apiError e)
  ∧ waitOrganizationCreated
        (List.replicate n (DescribeResponse.output (some oC)) ++
          DescribeResponse.apiError e :: rest)
      = (none, .fatalErr (.apiError e))
  ∧ waitOrganizationDeleted (DescribeResponse.apiError e :: rest2)
      = (none, .fatalErr (.apiError e))
  ∧ waitOrganizationCreated
        (List.replicate n (DescribeResponse.output (some oC)) ++
          DescribeResponse.output none :: rest3)
      = (none, .fatalErr .emptyResultError) := by
  have sC : statusOrganization (.output (some oC))
      = .observed (.describeOutput oC) statusCreating := by
    rw [statusOrganization_found hCi, hCs]
    rfl
  refine ⟨rfl, ?_, ?_, ?_⟩
  · have hW : WaitForState waitOrganizationCreatedConf
        (List.replicate n (DescribeResponse.output (some oC)) ++
          DescribeResponse.apiError e :: rest)
        = .fatalErr (.apiError e) := by
      unfold WaitForState
      rw [List.map_append, List.map_replicate, List.map_cons, sC,
        statusOrganization_apiError, waitLoop_created_creating_prefix,
        waitLoop_refreshError]
    unfold waitOrganizationCreated
    rw [hW]
  · have hW : WaitForState waitOrganizationDeletedConf
        (DescribeResponse.apiError e :: rest2) = .fatalErr (.apiError e) := by
      unfold WaitForState
      rw [List.map_cons, statusOrganization_apiError, waitLoop_refreshError]
    unfold waitOrganizationDeleted
    rw [hW]
  · have hW : WaitForState waitOrganizationCreatedConf
        (List.replicate n (DescribeResponse.output (some oC)) ++
          DescribeResponse.output none :: rest3)
        = .fatalErr .emptyResultError := by
      unfold WaitForState
      rw [List.map_append, List.map_replicate, List.map_cons, sC,
        statusOrganization_outputNone, waitLoop_created_creating_prefix,
        waitLoop_refreshError]
    unfold waitOrganizationCreated
    rw [hW]

/-- C8 witness: a concrete API error after one `Creating` poll aborts both
waits immediately with the propagated error, and an empty describe result
aborts the creation wait the same way. -/
theorem statusOrganization_error_aborts_wait_witness :
    oCreatingSample.OrganizationId = some "m-00"
  ∧ oCreatingSample.State = some statusCreating
  ∧ (statusOrganization (.apiError "throttled")
      = .refreshError (.apiError "throttled")
  ∧ waitOrganizationCreated
        (List.replicate 1 (DescribeResponse.output (some oCreatingSample)) ++
          DescribeResponse.apiError "throttled" ::
            [DescribeResponse.output (some oActiveSample)])
      = (none, .fatalErr (.apiError "throttled"))
  ∧ waitOrganizationDeleted [DescribeResponse.apiError "throttled"]
      = (none, .fatalErr (.apiError "throttled"))
  ∧ waitOrganizationCreated
        (List.replicate 1 (DescribeResponse.output (some oCreatingSample)) ++
          DescribeResponse.output none :: [])
      = (none, .fatalErr .emptyResultError)) :=
  ⟨rfl, rfl,
    statusOrganization_error_aborts_wait 1 "throttled" oCreatingSample "m-00"
      [DescribeResponse.output (some oActiveSample)] [] [] rfl rfl⟩

/-- C9: The `alias` attribute is declared required and carries the
`RequiresReplace` plan modifier, so any change to the desired alias plans a
destroy-then-recreate (`replace`), never an in-place update. -/
theorem alias_change_requires_replace (prior planned : String)
    (h : prior ≠ planned) :
    aliasSchema.Required = true
  ∧ PlanModifier.requiresReplace ∈ aliasSchema.PlanModifiers
  ∧ planAliasAction prior planned = .replace
  ∧ planAliasAction prior planned ≠ .updateInPlace := by
  refine ⟨rfl, by simp [aliasSchema], ?_, ?_⟩ <;>
    simp [planAliasAction, h, aliasSchema]

/-- C9 witness: changing the alias from `"a"` to `"b"` plans a replacement. -/
theorem alias_change_requires_replace_witness :
    "a" ≠ "b"
  ∧ (aliasSchema.Required = true
  ∧ PlanModifier.requiresReplace ∈ aliasSchema.PlanModifiers
  ∧ planAliasAction "a" "b" = .replace
  ∧ planAliasAction "a" "b" ≠ .updateInPlace) :=
  ⟨by decide, alias_change_requires_replace "a" "b" (by decide)⟩

/-- C10: `waitOrganizationDeleted` always returns a nil organization pointer:
its type assertion of the raw wait output to `*workmail.Organization` can
never succeed, because the refresh function `statusOrganization` only ever
produces `*workmail.DescribeOrganizationOutput` values or nil. -/
theorem waitOrganizationDeleted_always_nil (trace : List DescribeResponse) :
    (waitOrganizationDeleted trace).1 = none := by
  unfold waitOrganizationDeleted
  cases hW : WaitForState waitOrganizationDeletedConf trace with
  | success v =>
    simp only
    unfold WaitForState at hW
    rcases waitLoop_success_mem waitOrganizationDeletedConf _ 0 0 v hW with
      hnil | ⟨s, hmem⟩
    · subst hnil
      rfl
    · rcases List.mem_map.mp hmem with ⟨r, _, hsr⟩
      cases v with
      | nilValue => rfl
      | describeOutput o => rfl
      | organizationValue org =>
        exact absurd hsr (statusOrganization_ne_organizationValue r org s)
  | timeoutErr => rfl
  | fatalErr e => rfl
  | unexpectedStateErr s => rfl

end Workmail
